import Mathlib

/-!
Verification development for the gcp-au-writer-audit repository.

The repository holds two near-duplicate Python scripts that audit the IAM
policy of a logging sink destination:

* `gcp-au-writer-audit-cloudshell.py` — the structured variant, with an
  `AuditFinding` dataclass, a `DestinationType` constant table, a destination
  parser `get_destination_info`, an auditor `audit_policy`, and a `main`
  that dispatches on the parsed destination type.
* `gcp-au-writer-audit.py` — the first variant, with a credential
  environment check, dispatch on the raw destination URL, and a tuple-based
  `audit_policy`.

External collaborators (Google Cloud clients) are modelled as oracle
functions supplied to the embedded `main`s; everything with decision logic
is translated directly from the source.
-/

/-- Auxiliary recursion for `pySplit`: walks the character list, cutting at
each separator. The accumulator holds the current segment reversed. -/
def splitCharAux (sep : Char) : List Char → List Char → List String
  | [], acc => [String.mk acc.reverse]
  | c :: cs, acc =>
    if c = sep then String.mk acc.reverse :: splitCharAux sep cs []
    else splitCharAux sep cs (c :: acc)

/-- Python `str.split` with an explicit one-character separator, as used by
`destination.split("/")` in both scripts. Always returns a non-empty list;
on a separator-free string it returns the one-element list `[s]`. -/
def pySplit (s : String) (sep : Char) : List String :=
  splitCharAux sep s.data []

/-- Python `a or b` for an optional string `a`: `None` and the empty string
are falsy, anything else wins. Used by `project_id = dest_project or
args.project_id` in the cloudshell `main`. -/
def pyOr (a : Option String) (b : String) : String :=
  match a with
  | none => b
  | some s => if s = "" then b else s

/-- The `AuditFinding` dataclass of the cloudshell script: one policy
binding in which the writer identity was found. -/
structure AuditFinding where
  role : String
  members : List String
  expected_role : Option String
  deriving Repr, DecidableEq

/-- Rendering of a Python string list for report lines (element quoting of
the Python `repr` is elided; report text is not under audit). -/
def membersRepr (ms : List String) : String :=
  "[" ++ String.intercalate ", " ms ++ "]"

/-- The `__str__` method of `AuditFinding`: the expected-role line is added
only when `expected_role` is truthy (neither `None` nor the empty string). -/
def findingStr (f : AuditFinding) : String :=
  let base := "Role: " ++ f.role ++ ", Members: " ++ membersRepr f.members
  match f.expected_role with
  | some er => if er = "" then base else base ++ "\nExpected Role: " ++ er
  | none => base

/-- `DestinationType.BIGQUERY` constant. -/
def DestinationType.BIGQUERY : String := "bigquery.googleapis.com"

/-- `DestinationType.STORAGE` constant. -/
def DestinationType.STORAGE : String := "storage.googleapis.com"

/-- `DestinationType.PUBSUB` constant. -/
def DestinationType.PUBSUB : String := "pubsub.googleapis.com"

/-- The static `EXPECTED_ROLES` table of the cloudshell script, as an
ordered association list (a Python dict preserves insertion order). -/
def DestinationType.EXPECTED_ROLES : List (String × String) :=
  [(DestinationType.BIGQUERY, "roles/bigquery.dataEditor"),
   (DestinationType.STORAGE, "roles/storage.objectCreator"),
   (DestinationType.PUBSUB, "roles/pubsub.publisher")]

/-- Python `EXPECTED_ROLES.get(destination_type)`: exact-key lookup
returning `None` when the key is absent. -/
def DestinationType.expectedRolesGet (t : String) : Option String :=
  (DestinationType.EXPECTED_ROLES.find? (fun p => p.1 == t)).map Prod.snd

/-- A policy value as passed to the cloudshell `audit_policy`: either the
raw role-to-members mapping, or a provider object wrapping that mapping in
a `bindings` attribute. The mapping is an ordered association list of
role name to member identities (a Python dict preserves insertion order). -/
inductive Policy where
  | raw (m : List (String × List String))
  | wrapped (bindings : List (String × List String))
  deriving Repr, DecidableEq

/-- Python `getattr(policy, "bindings", policy)`: take the `bindings`
attribute when the object has one, otherwise the object itself. -/
def policyBindings : Policy → List (String × List String)
  | .raw m => m
  | .wrapped b => b

/-- The binding loop of the cloudshell `audit_policy`: for each
`(role, members)` pair, emit a finding exactly when the writer identity is
among the members, preserving iteration order. -/
def auditFindingsLoop (writer_identity : String) (expected_role : Option String) :
    List (String × List String) → List AuditFinding
  | [] => []
  | (role, members) :: rest =>
    if writer_identity ∈ members then
      ⟨role, members, expected_role⟩ :: auditFindingsLoop writer_identity expected_role rest
    else auditFindingsLoop writer_identity expected_role rest

/-- `audit_policy` of the cloudshell script. -/
def audit_policy (policy : Policy) (writer_identity destination_type : String) :
    List AuditFinding :=
  let bindings := policyBindings policy
  let expected_role := DestinationType.expectedRolesGet destination_type
  auditFindingsLoop writer_identity expected_role bindings

/-- `audit_policy` of the first script (gcp-au-writer-audit.py): same loop
but over a bare mapping, collecting `(role, members)` tuples. -/
def audit_policy_v1 : List (String × List String) → String → List (String × List String)
  | [], _ => []
  | (role, members) :: rest, writer_identity =>
    if writer_identity ∈ members then
      (role, members) :: audit_policy_v1 rest writer_identity
    else audit_policy_v1 rest writer_identity

/-- `get_destination_info` of the cloudshell script: split the destination
URL on `/`; the first segment is the type, the last the resource name, and
segment index 2 (when present) the owning project. Fewer than 2 segments
raises `ValueError("Invalid destination format: ...")`. -/
def get_destination_info (destination : String) :
    Except String (String × String × Option String) :=
  let parts := pySplit destination '/'
  let dest_type := parts.headI
  if parts.length < 2 then
    Except.error ("Invalid destination format: " ++ destination)
  else
    Except.ok (dest_type, parts.getLastD "",
      if 2 < parts.length then some (parts.getD 2 "") else none)

/-- Python `s.startswith(pre)`. -/
def startswith (s pre : String) : Bool :=
  pre.data.isPrefixOf s.data

/-- The policy retrieval operation selected by the dispatch in the
cloudshell `main`. -/
inductive FetchOp where
  | bigqueryFetch (dataset_id : String)
  | storageFetch (bucket_name : String)
  | pubsubFetch (topic_name project_id : String)
  deriving Repr, DecidableEq

/-- The `if/elif/else` dispatch of the cloudshell `main` (lines 139 to 148):
prefix-match the parsed destination type against the three known constants,
in order; no match exits with the unsupported-destination message. -/
def dispatch (dest_type resource_name project_id : String) : Except String FetchOp :=
  if startswith dest_type DestinationType.BIGQUERY then
    Except.ok (FetchOp.bigqueryFetch resource_name)
  else if startswith dest_type DestinationType.STORAGE then
    Except.ok (FetchOp.storageFetch resource_name)
  else if startswith dest_type DestinationType.PUBSUB then
    Except.ok (FetchOp.pubsubFetch resource_name project_id)
  else
    Except.error ("Error: Unsupported destination type: " ++ dest_type)

/-- A Python runtime error relevant to this code base. -/
inductive PyError where
  | nameError (n : String)
  deriving Repr, DecidableEq

/-- Top-level names bound at module scope in gcp-au-writer-audit.py: the
imports and the five function definitions. `project_id` is not among them,
and the script never assigns a module-level `project_id`. -/
def moduleGlobals : List String :=
  ["os", "argparse", "storage", "bigquery", "pubsub_v1", "iam",
   "get_writer_identity", "get_storage_policy", "get_bigquery_policy",
   "get_pubsub_policy", "audit_policy", "main"]

/-- Python name resolution for a name read inside a function body: the name
must be a local or a module-level global, otherwise a `NameError` is
raised. -/
def nameDefined (n : String) (locals globals : List String) : Bool :=
  locals.contains n || globals.contains n

/-- `get_pubsub_policy` of the first script. Its body evaluates
`client.topic_path(project_id, topic_name)` where `project_id` is neither a
parameter nor a local; the locals in scope at that point are `topic_name`
and `client`. When the name resolves the provider would be called once;
when it does not, the `NameError` is raised before any policy request, so
the request count is 0. -/
def get_pubsub_policy_v1 (topic_name : String)
    (provider : String → List (String × List String)) :
    Except PyError (List (String × List String)) × Nat :=
  if nameDefined "project_id" ["topic_name", "client"] moduleGlobals then
    (Except.ok (provider topic_name), 1)
  else
    (Except.error (PyError.nameError "project_id"), 0)

/-- Observable outcome of one embedded CLI run: process exit code, printed
lines, number of sink-lookup calls, number of policy-fetch calls, and
whether the audit step ran. -/
structure RunResult where
  exitCode : Nat
  output : List String
  sinkCalls : Nat
  policyFetches : Nat
  auditRan : Bool
  deriving Repr, DecidableEq

/-- The instructional message printed by the first script when
`GOOGLE_APPLICATION_CREDENTIALS` is unset. -/
def CRED_MSG : String :=
  "Please set the GOOGLE_APPLICATION_CREDENTIALS environment variable to your service account key."

/-- External collaborators of the first script. The policy oracles return
the role-to-members mapping the script audits (for the BigQuery and
Pub/Sub paths that is the `bindings` attribute of the provider object; for
Storage the returned mapping itself). -/
structure Collab1 where
  sinkLookup : String → String → String × String
  bigqueryBindings : String → List (String × List String)
  storagePolicy : String → List (String × List String)
  pubsubBindings : String → List (String × List String)

/-- Report lines of the first script. -/
def report_v1 (findings : List (String × List String)) : List String :=
  if findings.isEmpty then
    ["\nNo excessive permissions found for the writer identity."]
  else
    "\nIAM Policy Audit Findings:" ::
      findings.map (fun rm => "- Role: " ++ rm.1 ++ ", Members: " ++ membersRepr rm.2)

/-- `main` of the first script (gcp-au-writer-audit.py), with the ambient
credential variable and the collaborators passed explicitly. An unset or
empty `GOOGLE_APPLICATION_CREDENTIALS` prints the instructional message and
returns normally (exit code 0). Dispatch prefix-matches the raw destination
URL. The Pub/Sub branch calls `get_pubsub_policy`, whose unbound
`project_id` raises an uncaught `NameError`: the process dies with exit
code 1 before any policy request. An unsupported destination prints a
message and returns normally. -/
def main_v1 (cred : Option String) (sink_name project_id : String) (c : Collab1) :
    RunResult :=
  if cred = none ∨ cred = some "" then
    ⟨0, [CRED_MSG], 0, 0, false⟩
  else
    let wd := c.sinkLookup sink_name project_id
    let writer_identity := wd.1
    let destination := wd.2
    let header := ["Writer Identity: " ++ writer_identity, "Destination: " ++ destination]
    if startswith destination DestinationType.BIGQUERY then
      let dataset_id := (pySplit destination '/').getLastD ""
      let findings := audit_policy_v1 (c.bigqueryBindings dataset_id) writer_identity
      ⟨0, header ++ report_v1 findings, 1, 1, true⟩
    else if startswith destination DestinationType.STORAGE then
      let bucket_name := (pySplit destination '/').getLastD ""
      let findings := audit_policy_v1 (c.storagePolicy bucket_name) writer_identity
      ⟨0, header ++ report_v1 findings, 1, 1, true⟩
    else if startswith destination DestinationType.PUBSUB then
      let topic_name := (pySplit destination '/').getLastD ""
      match get_pubsub_policy_v1 topic_name c.pubsubBindings with
      | (Except.error _, n) => ⟨1, header, 1, n, false⟩
      | (Except.ok bindings, n) =>
        let findings := audit_policy_v1 bindings writer_identity
        ⟨0, header ++ report_v1 findings, 1, n, true⟩
    else
      ⟨0, header ++ ["Unsupported destination type."], 1, 0, false⟩

/-- External collaborators of the cloudshell script. Each oracle models one
`get_*` helper: `Except.error msg` is the `ValueError` message the helper
raises when the provider reports the resource absent. -/
structure Collab2 where
  sinkLookup : String → String → Except String (String × String)
  bigqueryPolicy : String → Except String Policy
  storagePolicy : String → Except String Policy
  pubsubPolicy : String → String → Except String Policy

/-- Execution of the fetch operation selected by `dispatch`. -/
def runFetch (c : Collab2) : FetchOp → Except String Policy
  | .bigqueryFetch d => c.bigqueryPolicy d
  | .storageFetch b => c.storagePolicy b
  | .pubsubFetch t p => c.pubsubPolicy t p

/-- Report lines of the cloudshell script. -/
def reportCS (findings : List AuditFinding) : List String :=
  if findings.isEmpty then
    ["\nNo excessive permissions found for the writer identity"]
  else
    "\nIAM Policy Audit Findings:" :: findings.map (fun f => "- " ++ findingStr f)

/-- `main` of the cloudshell script, collaborators passed explicitly.
A `ValueError` from any stage is caught and turned into
`sys.exit("Error: ...")`, exit code 1; the unsupported-destination branch
exits directly with its own message and performs no policy fetch. -/
def mainCS (sink_name project_id : String) (c : Collab2) : RunResult :=
  match c.sinkLookup sink_name project_id with
  | Except.error msg => ⟨1, ["Error: " ++ msg], 1, 0, false⟩
  | Except.ok (writer_identity, destination) =>
    let header := ["Writer Identity: " ++ writer_identity, "Destination: " ++ destination]
    match get_destination_info destination with
    | Except.error msg => ⟨1, header ++ ["Error: " ++ msg], 1, 0, false⟩
    | Except.ok (dest_type, resource_name, dest_project) =>
      let project_id2 := pyOr dest_project project_id
      match dispatch dest_type resource_name project_id2 with
      | Except.error msg => ⟨1, header ++ [msg], 1, 0, false⟩
      | Except.ok op =>
        match runFetch c op with
        | Except.error msg => ⟨1, header ++ ["Error: " ++ msg], 1, 1, false⟩
        | Except.ok policy =>
          let findings := audit_policy policy writer_identity dest_type
          ⟨0, header ++ reportCS findings, 1, 1, true⟩

/-- A concrete collaborator oracle for the first script, used to
instantiate CLI-level statements: the sink resolves to a Pub/Sub
destination, all policies are empty. -/
def witnessCollab1 : Collab1 :=
  ⟨fun _ _ => ("serviceAccount:sink-writer", "pubsub.googleapis.com/t1"),
   fun _ => [], fun _ => [], fun _ => []⟩

/-- A concrete collaborator oracle for the cloudshell script, used to
instantiate CLI-level statements: the sink resolves to an unsupported
destination, all policies are empty. -/
def witnessCollab2 : Collab2 :=
  ⟨fun _ _ => Except.ok ("serviceAccount:sink-writer", "unknown.googleapis.com/x"),
   fun _ => Except.ok (Policy.raw []),
   fun _ => Except.ok (Policy.raw []),
   fun _ _ => Except.ok (Policy.raw [])⟩

/-- The audit loop is filter-then-map: it keeps exactly the bindings whose
members contain the writer identity, in order, and tags each with the
expected role. -/
theorem auditFindingsLoop_eq (w : String) (er : Option String)
    (l : List (String × List String)) :
    auditFindingsLoop w er l =
      (l.filter (fun b => decide (w ∈ b.2))).map (fun b => ⟨b.1, b.2, er⟩) := by
  induction l with
  | nil => rfl
  | cons hd tl ih =>
    obtain ⟨role, members⟩ := hd
    by_cases h : w ∈ members <;>
      simp [auditFindingsLoop, List.filter_cons, h, ih]

/-- Claim C1: `audit_policy` returns exactly one finding per binding whose
members contain the writer identity (none when the identity appears
nowhere), and every returned finding has a role that is a key of the
audited policy and a members list containing the writer identity. -/
theorem audit_policy_findings_spec (policy : Policy) (w t : String) :
    audit_policy policy w t =
      ((policyBindings policy).filter (fun b => decide (w ∈ b.2))).map
        (fun b => ⟨b.1, b.2, DestinationType.expectedRolesGet t⟩) ∧
    (audit_policy policy w t).length =
      (policyBindings policy).countP (fun b => decide (w ∈ b.2)) ∧
    ((∀ b ∈ policyBindings policy, w ∉ b.2) → audit_policy policy w t = []) ∧
    (∀ f ∈ audit_policy policy w t,
      f.role ∈ (policyBindings policy).map Prod.fst ∧ w ∈ f.members) := by
  have hc : audit_policy policy w t =
      ((policyBindings policy).filter (fun b => decide (w ∈ b.2))).map
        (fun b => ⟨b.1, b.2, DestinationType.expectedRolesGet t⟩) :=
    auditFindingsLoop_eq w (DestinationType.expectedRolesGet t) (policyBindings policy)
  refine ⟨hc, ?_, ?_, ?_⟩
  · rw [hc, List.length_map, List.countP_eq_length_filter]
  · intro hnone
    rw [hc]
    have : (policyBindings policy).filter (fun b => decide (w ∈ b.2)) = [] := by
      rw [List.filter_eq_nil_iff]
      intro b hb
      simpa using hnone b hb
    rw [this, List.map_nil]
  · intro f hf
    rw [hc] at hf
    rcases List.mem_map.mp hf with ⟨b, hb, hfb⟩
    rcases List.mem_filter.mp hb with ⟨hbmem, hbpred⟩
    subst hfb
    exact ⟨List.mem_map.mpr ⟨b, hbmem, rfl⟩, of_decide_eq_true hbpred⟩

/-- Closed instance of claim C1 at a concrete policy in which the writer
identity appears in no binding. -/
theorem audit_policy_findings_spec_witness :
    (∀ b ∈ policyBindings (Policy.raw [("roles/owner", ["alice"])]), "bob" ∉ b.2) ∧
    audit_policy (Policy.raw [("roles/owner", ["alice"])]) "bob"
      "storage.googleapis.com" = [] :=
  ⟨by decide,
   (audit_policy_findings_spec (Policy.raw [("roles/owner", ["alice"])]) "bob"
      "storage.googleapis.com").2.2.1 (by decide)⟩

/-- Claim C5: the auditor treats a raw role-to-members mapping and the same
mapping wrapped in a `bindings` attribute identically. -/
theorem audit_policy_raw_wrapped_eq (m : List (String × List String)) (w t : String) :
    audit_policy (Policy.raw m) w t = audit_policy (Policy.wrapped m) w t := rfl

/-- Claim C7: the audit depends only on the policy content, so two calls on
policies with equal bindings (in particular, two calls on the same policy)
yield identical finding sequences. -/
theorem audit_policy_deterministic (p₁ p₂ : Policy) (w t : String)
    (h : policyBindings p₁ = policyBindings p₂) :
    audit_policy p₁ w t = audit_policy p₂ w t := by
  simp only [audit_policy, h]

/-- Closed instance of claim C7: a raw and a wrapped policy with the same
content audit to the same findings. -/
theorem audit_policy_deterministic_witness :
    audit_policy (Policy.raw [("roles/pubsub.publisher", ["svc"])]) "svc"
      "pubsub.googleapis.com" =
    audit_policy (Policy.wrapped [("roles/pubsub.publisher", ["svc"])]) "svc"
      "pubsub.googleapis.com" :=
  audit_policy_deterministic (Policy.raw [("roles/pubsub.publisher", ["svc"])])
    (Policy.wrapped [("roles/pubsub.publisher", ["svc"])]) "svc"
    "pubsub.googleapis.com" rfl

/-- Every finding emitted by `audit_policy` carries the table lookup for
the destination type as its expected role. -/
theorem audit_policy_expected_role_all (policy : Policy) (w t : String) :
    ∀ f ∈ audit_policy policy w t,
      f.expected_role = DestinationType.expectedRolesGet t := by
  have hc : audit_policy policy w t =
      ((policyBindings policy).filter (fun b => decide (w ∈ b.2))).map
        (fun b => ⟨b.1, b.2, DestinationType.expectedRolesGet t⟩) :=
    auditFindingsLoop_eq w (DestinationType.expectedRolesGet t) (policyBindings policy)
  intro f hf
  rw [hc] at hf
  rcases List.mem_map.mp hf with ⟨b, _, hfb⟩
  subst hfb
  rfl

/-- Claim C6: every finding carries the static table entry for the
destination type (dataEditor, objectCreator, publisher for the three known
types); a type absent from the table yields findings with no expected role
while the audit still runs; and the concrete storage scenario produces two
findings each expecting `roles/storage.objectCreator`. -/
theorem audit_policy_expected_role_spec (policy : Policy) (w t : String) :
    (∀ f ∈ audit_policy policy w t,
      f.expected_role = DestinationType.expectedRolesGet t) ∧
    DestinationType.expectedRolesGet DestinationType.BIGQUERY =
      some "roles/bigquery.dataEditor" ∧
    DestinationType.expectedRolesGet DestinationType.STORAGE =
      some "roles/storage.objectCreator" ∧
    DestinationType.expectedRolesGet DestinationType.PUBSUB =
      some "roles/pubsub.publisher" ∧
    (DestinationType.expectedRolesGet t = none →
      (∀ f ∈ audit_policy policy w t, f.expected_role = none) ∧
      (audit_policy policy w t).length =
        (policyBindings policy).countP (fun b => decide (w ∈ b.2))) ∧
    audit_policy
        (Policy.raw [("roles/storage.objectCreator", ["writerIdentity"]),
          ("roles/storage.admin", ["writerIdentity", "other"])])
        "writerIdentity" "storage.googleapis.com" =
      [⟨"roles/storage.objectCreator", ["writerIdentity"],
          some "roles/storage.objectCreator"⟩,
       ⟨"roles/storage.admin", ["writerIdentity", "other"],
          some "roles/storage.objectCreator"⟩] := by
  have hc : audit_policy policy w t =
      ((policyBindings policy).filter (fun b => decide (w ∈ b.2))).map
        (fun b => ⟨b.1, b.2, DestinationType.expectedRolesGet t⟩) :=
    auditFindingsLoop_eq w (DestinationType.expectedRolesGet t) (policyBindings policy)
  have hall := audit_policy_expected_role_all policy w t
  refine ⟨hall, by decide, by decide, by decide, ?_, by decide⟩
  intro hnone
  refine ⟨fun f hf => (hall f hf).trans hnone, ?_⟩
  rw [hc, List.length_map, List.countP_eq_length_filter]

/-- Closed instance of claim C6 at a destination type absent from the
expected-role table. -/
theorem audit_policy_expected_role_spec_witness :
    (∀ f ∈ audit_policy (Policy.raw [("roles/editor", ["writerX"])]) "writerX"
        "unknown.googleapis.com", f.expected_role = none) ∧
    (audit_policy (Policy.raw [("roles/editor", ["writerX"])]) "writerX"
        "unknown.googleapis.com").length =
      (policyBindings (Policy.raw [("roles/editor", ["writerX"])])).countP
        (fun b => decide ("writerX" ∈ b.2)) :=
  (audit_policy_expected_role_spec (Policy.raw [("roles/editor", ["writerX"])])
    "writerX" "unknown.googleapis.com").2.2.2.2.1 (by decide)

/-- The split helper never returns an empty list. -/
theorem splitCharAux_ne_nil (sep : Char) (cs acc : List Char) :
    splitCharAux sep cs acc ≠ [] := by
  induction cs generalizing acc with
  | nil => simp [splitCharAux]
  | cons c cs ih =>
    by_cases h : c = sep <;> simp [splitCharAux, h, ih]

/-- `pySplit` never returns an empty list (Python `str.split` with an
explicit separator always yields at least one segment). -/
theorem pySplit_ne_nil (s : String) (sep : Char) : pySplit s sep ≠ [] :=
  splitCharAux_ne_nil sep s.data []

/-- On a non-empty list, index 0 holds the head. -/
theorem get?_zero_eq_headI {α : Type} [Inhabited α] (l : List α) (h : l ≠ []) :
    l.get? 0 = some l.headI := by
  cases l with
  | nil => exact absurd rfl h
  | cons a t => rfl

/-- Claim C3: on a destination URL with at least two segments,
`get_destination_info` returns the first segment as the type, the last
segment as the resource name, and segment index 2 as the project when more
than two segments exist, no project otherwise. -/
theorem get_destination_info_spec (s : String)
    (h : 2 ≤ (pySplit s '/').length) :
    ∃ t n p, get_destination_info s = Except.ok (t, n, p) ∧
      (pySplit s '/').get? 0 = some t ∧
      (pySplit s '/').getLast? = some n ∧
      (2 < (pySplit s '/').length → p = (pySplit s '/').get? 2 ∧ p ≠ none) ∧
      ((pySplit s '/').length = 2 → p = none) := by
  have hne : pySplit s '/' ≠ [] := pySplit_ne_nil s '/'
  have hnl : ¬ (pySplit s '/').length < 2 := Nat.not_lt.mpr h
  refine ⟨(pySplit s '/').headI, (pySplit s '/').getLastD "",
    if 2 < (pySplit s '/').length then some ((pySplit s '/').getD 2 "") else none,
    ?_, ?_, ?_, ?_, ?_⟩
  · simp only [get_destination_info, if_neg hnl]
  · exact get?_zero_eq_headI _ hne
  · obtain ⟨x, hx⟩ := Option.isSome_iff_exists.mp (List.getLast?_isSome.mpr hne)
    rw [List.getLastD_eq_getLast?, hx]
    rfl
  · intro h2
    rw [if_pos h2]
    refine ⟨?_, by simp⟩
    rw [List.getD_eq_get?, List.get?_eq_get h2]
    rfl
  · intro h2
    rw [if_neg (by omega)]

/-- Closed instance of claim C3 at the spec scenario destination. -/
theorem get_destination_info_spec_witness :
    ∃ t n p, get_destination_info "storage.googleapis.com/projects/p1/buckets/b1" =
        Except.ok (t, n, p) ∧
      (pySplit "storage.googleapis.com/projects/p1/buckets/b1" '/').get? 0 = some t ∧
      (pySplit "storage.googleapis.com/projects/p1/buckets/b1" '/').getLast? = some n ∧
      (2 < (pySplit "storage.googleapis.com/projects/p1/buckets/b1" '/').length →
        p = (pySplit "storage.googleapis.com/projects/p1/buckets/b1" '/').get? 2 ∧
        p ≠ none) ∧
      ((pySplit "storage.googleapis.com/projects/p1/buckets/b1" '/').length = 2 →
        p = none) :=
  get_destination_info_spec "storage.googleapis.com/projects/p1/buckets/b1" (by decide)

/-- Claim C4: on a destination URL with fewer than two segments,
`get_destination_info` fails with the invalid-format error and returns no
tuple. -/
theorem get_destination_info_short_error (s : String)
    (h : (pySplit s '/').length < 2) :
    get_destination_info s = Except.error ("Invalid destination format: " ++ s) := by
  simp only [get_destination_info, if_pos h]

/-- Closed instance of claim C4 at a separator-free destination. -/
theorem get_destination_info_short_error_witness :
    get_destination_info "abc" = Except.error ("Invalid destination format: " ++ "abc") :=
  get_destination_info_short_error "abc" (by decide)

/-- Python `startswith` as list prefix of the character data. -/
theorem startswith_iff {s pre : String} :
    startswith s pre = true ↔ pre.data <+: s.data := by
  simp [startswith]

/-- No destination type string can prefix-match two of the three known
type constants at once. -/
theorem destination_prefixes_exclusive (dt : String) :
    ¬(startswith dt DestinationType.BIGQUERY = true ∧
      startswith dt DestinationType.STORAGE = true) ∧
    ¬(startswith dt DestinationType.BIGQUERY = true ∧
      startswith dt DestinationType.PUBSUB = true) ∧
    ¬(startswith dt DestinationType.STORAGE = true ∧
      startswith dt DestinationType.PUBSUB = true) := by
  refine ⟨?_, ?_, ?_⟩ <;> rintro ⟨h1, h2⟩ <;>
    rw [startswith_iff] at h1 h2 <;>
    rcases List.prefix_or_prefix_of_prefix h1 h2 with h | h <;>
    revert h <;> decide

/-- When none of the three known prefixes match, `dispatch` exits with the
unsupported-destination message. -/
theorem dispatch_unsupported (dt rn pj : String)
    (hb : startswith dt DestinationType.BIGQUERY = false)
    (hs : startswith dt DestinationType.STORAGE = false)
    (hp : startswith dt DestinationType.PUBSUB = false) :
    dispatch dt rn pj =
      Except.error ("Error: Unsupported destination type: " ++ dt) := by
  simp [dispatch, hb, hs, hp]

/-- Claim C2: the dispatch selects exactly one of the three retrieval
operations by prefix match (the three prefixes are mutually exclusive),
and when no prefix matches, the run fails with the unsupported-destination
message and performs no policy fetch. -/
theorem dispatch_spec (dt rn pj : String) :
    (startswith dt DestinationType.BIGQUERY = true →
      dispatch dt rn pj = Except.ok (FetchOp.bigqueryFetch rn)) ∧
    (startswith dt DestinationType.STORAGE = true →
      dispatch dt rn pj = Except.ok (FetchOp.storageFetch rn)) ∧
    (startswith dt DestinationType.PUBSUB = true →
      dispatch dt rn pj = Except.ok (FetchOp.pubsubFetch rn pj)) ∧
    ¬(startswith dt DestinationType.BIGQUERY = true ∧
      startswith dt DestinationType.STORAGE = true) ∧
    ¬(startswith dt DestinationType.BIGQUERY = true ∧
      startswith dt DestinationType.PUBSUB = true) ∧
    ¬(startswith dt DestinationType.STORAGE = true ∧
      startswith dt DestinationType.PUBSUB = true) ∧
    (startswith dt DestinationType.BIGQUERY = false →
     startswith dt DestinationType.STORAGE = false →
     startswith dt DestinationType.PUBSUB = false →
      dispatch dt rn pj =
        Except.error ("Error: Unsupported destination type: " ++ dt)) ∧
    (∀ (c : Collab2) (sn pjArg wi dest : String) (dp : Option String),
      c.sinkLookup sn pjArg = Except.ok (wi, dest) →
      get_destination_info dest = Except.ok (dt, rn, dp) →
      pyOr dp pjArg = pj →
      startswith dt DestinationType.BIGQUERY = false →
      startswith dt DestinationType.STORAGE = false →
      startswith dt DestinationType.PUBSUB = false →
      (mainCS sn pjArg c).policyFetches = 0 ∧
      (mainCS sn pjArg c).exitCode = 1 ∧
      (mainCS sn pjArg c).auditRan = false) := by
  obtain ⟨e1, e2, e3⟩ := destination_prefixes_exclusive dt
  refine ⟨?_, ?_, ?_, e1, e2, e3, dispatch_unsupported dt rn pj, ?_⟩
  · intro h
    simp [dispatch, h]
  · intro h
    have hb : startswith dt DestinationType.BIGQUERY = false := by
      cases hbq : startswith dt DestinationType.BIGQUERY
      · rfl
      · exact absurd ⟨hbq, h⟩ e1
    simp [dispatch, hb, h]
  · intro h
    have hb : startswith dt DestinationType.BIGQUERY = false := by
      cases hbq : startswith dt DestinationType.BIGQUERY
      · rfl
      · exact absurd ⟨hbq, h⟩ e2
    have hs : startswith dt DestinationType.STORAGE = false := by
      cases hst : startswith dt DestinationType.STORAGE
      · rfl
      · exact absurd ⟨hst, h⟩ e3
    simp [dispatch, hb, hs, h]
  · intro c sn pjArg wi dest dp h1 h2 h3 hb hs hp
    have hd : dispatch dt rn (pyOr dp pjArg) =
        Except.error ("Error: Unsupported destination type: " ++ dt) := by
      rw [h3]
      exact dispatch_unsupported dt rn pj hb hs hp
    simp [mainCS, h1, h2, hd]

/-- Closed instance of claim C2 at the spec scenario 5 destination
`unknown.googleapis.com/x`: the run fails and no policy fetch happens. -/
theorem dispatch_spec_witness :
    (mainCS "s1" "p1" witnessCollab2).policyFetches = 0 ∧
    (mainCS "s1" "p1" witnessCollab2).exitCode = 1 ∧
    (mainCS "s1" "p1" witnessCollab2).auditRan = false :=
  (dispatch_spec "unknown.googleapis.com" "x" "p1").2.2.2.2.2.2.2 witnessCollab2
    "s1" "p1" "serviceAccount:sink-writer" "unknown.googleapis.com/x" none
    rfl rfl rfl (by decide) (by decide) (by decide)

/-- The expected-role table has only the three exact keys, so any other
destination type looks up to `none`. -/
theorem expectedRolesGet_eq_none {dt : String}
    (h1 : dt ≠ DestinationType.BIGQUERY) (h2 : dt ≠ DestinationType.STORAGE)
    (h3 : dt ≠ DestinationType.PUBSUB) :
    DestinationType.expectedRolesGet dt = none := by
  have b1 : (DestinationType.BIGQUERY == dt) = false :=
    beq_eq_false_iff_ne.mpr (Ne.symm h1)
  have b2 : (DestinationType.STORAGE == dt) = false :=
    beq_eq_false_iff_ne.mpr (Ne.symm h2)
  have b3 : (DestinationType.PUBSUB == dt) = false :=
    beq_eq_false_iff_ne.mpr (Ne.symm h3)
  simp [DestinationType.expectedRolesGet, DestinationType.EXPECTED_ROLES,
    List.find?, b1, b2, b3]

/-- Claim C9: a destination type that strictly extends one of the three
known constants still dispatches to the corresponding retrieval operation
(prefix match), yet the expected-role lookup misses (exact key match), so
every finding carries no expected role. -/
theorem prefix_match_expected_role_none (dt rn pj w : String) (policy : Policy) :
    (startswith dt DestinationType.BIGQUERY = true →
     dt ≠ DestinationType.BIGQUERY →
      dispatch dt rn pj = Except.ok (FetchOp.bigqueryFetch rn) ∧
      DestinationType.expectedRolesGet dt = none ∧
      ∀ f ∈ audit_policy policy w dt, f.expected_role = none) ∧
    (startswith dt DestinationType.STORAGE = true →
     dt ≠ DestinationType.STORAGE →
      dispatch dt rn pj = Except.ok (FetchOp.storageFetch rn) ∧
      DestinationType.expectedRolesGet dt = none ∧
      ∀ f ∈ audit_policy policy w dt, f.expected_role = none) ∧
    (startswith dt DestinationType.PUBSUB = true →
     dt ≠ DestinationType.PUBSUB →
      dispatch dt rn pj = Except.ok (FetchOp.pubsubFetch rn pj) ∧
      DestinationType.expectedRolesGet dt = none ∧
      ∀ f ∈ audit_policy policy w dt, f.expected_role = none) := by
  obtain ⟨e1, e2, e3⟩ := destination_prefixes_exclusive dt
  have hall := audit_policy_expected_role_all policy w dt
  refine ⟨?_, ?_, ?_⟩
  · intro hpre hne
    have hn : DestinationType.expectedRolesGet dt = none := by
      refine expectedRolesGet_eq_none hne ?_ ?_
      · intro he
        rw [he] at hpre
        exact absurd hpre (by decide)
      · intro he
        rw [he] at hpre
        exact absurd hpre (by decide)
    exact ⟨by simp [dispatch, hpre], hn,
      fun f hf => (hall f hf).trans hn⟩
  · intro hpre hne
    have hb : startswith dt DestinationType.BIGQUERY = false := by
      cases hbq : startswith dt DestinationType.BIGQUERY
      · rfl
      · exact absurd ⟨hbq, hpre⟩ e1
    have hn : DestinationType.expectedRolesGet dt = none := by
      refine expectedRolesGet_eq_none ?_ hne ?_
      · intro he
        rw [he] at hpre
        exact absurd hpre (by decide)
      · intro he
        rw [he] at hpre
        exact absurd hpre (by decide)
    exact ⟨by simp [dispatch, hb, hpre], hn,
      fun f hf => (hall f hf).trans hn⟩
  · intro hpre hne
    have hb : startswith dt DestinationType.BIGQUERY = false := by
      cases hbq : startswith dt DestinationType.BIGQUERY
      · rfl
      · exact absurd ⟨hbq, hpre⟩ e2
    have hs : startswith dt DestinationType.STORAGE = false := by
      cases hst : startswith dt DestinationType.STORAGE
      · rfl
      · exact absurd ⟨hst, hpre⟩ e3
    have hn : DestinationType.expectedRolesGet dt = none := by
      refine expectedRolesGet_eq_none ?_ ?_ hne
      · intro he
        rw [he] at hpre
        exact absurd hpre (by decide)
      · intro he
        rw [he] at hpre
        exact absurd hpre (by decide)
    exact ⟨by simp [dispatch, hb, hs, hpre], hn,
      fun f hf => (hall f hf).trans hn⟩

/-- Closed instance of claim C9 at `storage.googleapis.com2`. -/
theorem prefix_match_expected_role_none_witness :
    dispatch "storage.googleapis.com2" "b1" "p1" =
      Except.ok (FetchOp.storageFetch "b1") ∧
    DestinationType.expectedRolesGet "storage.googleapis.com2" = none ∧
    ∀ f ∈ audit_policy (Policy.raw [("roles/storage.admin", ["w1"])]) "w1"
        "storage.googleapis.com2", f.expected_role = none :=
  (prefix_match_expected_role_none "storage.googleapis.com2" "b1" "p1" "w1"
    (Policy.raw [("roles/storage.admin", ["w1"])])).2.1 (by decide) (by decide)

/-- Claim C10: `get_pubsub_policy` of the first script reads the unbound
name `project_id` and therefore fails with a `NameError` before issuing a
policy request (request count 0), for every input; through `main` of the
first script, a run whose sink resolves to a Pub/Sub destination dies with
a non-zero exit and never fetches a policy nor audits. -/
theorem get_pubsub_policy_unbound_name :
    (∀ (topic : String) (provider : String → List (String × List String)),
      get_pubsub_policy_v1 topic provider =
        (Except.error (PyError.nameError "project_id"), 0)) ∧
    (∀ (cred : Option String) (sink proj : String) (c : Collab1),
      ¬(cred = none ∨ cred = some "") →
      startswith (c.sinkLookup sink proj).2 DestinationType.PUBSUB = true →
      (main_v1 cred sink proj c).exitCode = 1 ∧
      (main_v1 cred sink proj c).policyFetches = 0 ∧
      (main_v1 cred sink proj c).auditRan = false) := by
  have hfn : ∀ (topic : String) (provider : String → List (String × List String)),
      get_pubsub_policy_v1 topic provider =
        (Except.error (PyError.nameError "project_id"), 0) := by
    intro topic provider
    rfl
  refine ⟨hfn, ?_⟩
  intro cred sink proj c hcred hps
  obtain ⟨e1, e2, e3⟩ := destination_prefixes_exclusive (c.sinkLookup sink proj).2
  have hb : startswith (c.sinkLookup sink proj).2 DestinationType.BIGQUERY = false := by
    cases hbq : startswith (c.sinkLookup sink proj).2 DestinationType.BIGQUERY
    · rfl
    · exact absurd ⟨hbq, hps⟩ e2
  have hs : startswith (c.sinkLookup sink proj).2 DestinationType.STORAGE = false := by
    cases hst : startswith (c.sinkLookup sink proj).2 DestinationType.STORAGE
    · rfl
    · exact absurd ⟨hst, hps⟩ e3
  simp [main_v1, hcred, hb, hs, hps, hfn]

/-- Closed instance of claim C10: with credentials set and a Pub/Sub
destination, the first script dies without fetching any policy. -/
theorem get_pubsub_policy_unbound_name_witness :
    (main_v1 (some "/key.json") "s1" "p1" witnessCollab1).exitCode = 1 ∧
    (main_v1 (some "/key.json") "s1" "p1" witnessCollab1).policyFetches = 0 ∧
    (main_v1 (some "/key.json") "s1" "p1" witnessCollab1).auditRan = false :=
  get_pubsub_policy_unbound_name.2 (some "/key.json") "s1" "p1" witnessCollab1
    (by decide) (by decide)

/-- Counterexample to claim C8 as stated: with the credential reference
absent, the first script detects the absence before any collaborator call,
prints the instructional message and performs no audit, but `main` returns
normally, so the process exit code is 0 — not non-zero as claimed. -/
theorem credential_missing_nonzero_exit_refuted :
    (main_v1 none "my-sink" "my-project" witnessCollab1).sinkCalls = 0 ∧
    (main_v1 none "my-sink" "my-project" witnessCollab1).policyFetches = 0 ∧
    (main_v1 none "my-sink" "my-project" witnessCollab1).auditRan = false ∧
    (main_v1 none "my-sink" "my-project" witnessCollab1).output = [CRED_MSG] ∧
    ¬((main_v1 none "my-sink" "my-project" witnessCollab1).exitCode ≠ 0) := by
  decide

/-- Claim C8 as amended: when the ambient credential reference is unset (or
empty), the first script detects this before any collaborator call, prints
the instructional message, performs no audit, and returns normally with
exit code 0. -/
theorem credential_missing_detected_exit_zero (cred : Option String)
    (sn pj : String) (c : Collab1) (h : cred = none ∨ cred = some "") :
    main_v1 cred sn pj c = ⟨0, [CRED_MSG], 0, 0, false⟩ := by
  unfold main_v1
  rw [if_pos h]

/-- Closed instance of the amended claim C8 at an unset credential. -/
theorem credential_missing_detected_exit_zero_witness :
    main_v1 none "s1" "p1" witnessCollab1 = ⟨0, [CRED_MSG], 0, 0, false⟩ :=
  credential_missing_detected_exit_zero none "s1" "p1" witnessCollab1 (Or.inl rfl)

